import Mathlib

/-!
Verification development for the swap-initiation module (`src/swap.ts`) of
the gardenfi repository: input validation, order-request construction and
the two-step quote/order handshake, embedded shallowly in Lean.

External collaborators (the BigNumber arithmetic library, the chain
registry, the secret deriver, the quote and orderbook services) are either
modelled from the spec (pure string parsing, `trim0x`) or kept opaque as
parameters of the orchestrator.
-/

namespace Gardenfi

/-- Tagged result type mirroring `Result<T, E>` of `@gardenfi/utils`:
either `ok val` or `err error`. -/
inductive Result (α : Type) (ε : Type) where
  | ok (val : α) : Result α ε
  | err (error : ε) : Result α ε
deriving DecidableEq, Repr

/-- Mirrors the JS truthiness test `!x` on an optional string field:
`x` is truthy exactly when it is present and non-empty. -/
def truthy : Option String → Bool
  | none => false
  | some s => !(s == "")

/-- `result.ok` field of a `Result`. -/
def Result.isOk {α ε : Type} : Result α ε → Bool
  | .ok _ => true
  | .err _ => false

/-! ## BigNumber model

`validateAmount` constructs `new BigNumber(amount)` from the external
`bignumber.js` library and queries `isInteger`, `isNaN` and
`isLessThanOrEqualTo(0)`. The library is an external collaborator; its
decimal parsing is modelled below. A BigNumber value is `Option ℚ`,
`none` standing for NaN. -/

/-- Numeric value of a list of decimal digit characters. -/
def digitsVal (ds : List Char) : Nat :=
  ds.foldl (fun acc c => 10 * acc + (c.toNat - 48)) 0

/-- Assembles a rational from sign, integer digits, fractional digits and
a decimal exponent: `sign * (intD.fracD) * 10^exp`. -/
def assemble (sign : Int) (intD fracD : List Char) (exp : Int) : ℚ :=
  let m : Int := sign * (digitsVal (intD ++ fracD) : Int)
  let shift : Int := exp - (fracD.length : Int)
  if 0 ≤ shift then mkRat (m * (10 ^ shift.toNat)) 1
  else mkRat m (10 ^ (0 - shift).toNat)

/-- Parses the exponent tail after `e`/`E`: optional sign then one or more
digits, nothing after. -/
def parseExpTail (cs : List Char) : Option Int :=
  let (esign, cs1) : Int × List Char :=
    match cs with
    | '+' :: rest => (1, rest)
    | '-' :: rest => (-1, rest)
    | _ => (1, cs)
  let eD := cs1.takeWhile Char.isDigit
  let rest := cs1.dropWhile Char.isDigit
  if eD.isEmpty || !rest.isEmpty then none
  else some (esign * (digitsVal eD : Int))

/-- Modelled from the spec: decimal-string parsing of the external
BigNumber collaborator ("validates a decimal string amount"): optional
sign, integer digits, optional fractional digits (at least one digit in
total), optional exponent; any other string is NaN (`none`). Notations
outside this decimal fragment (hex, octal, binary) are not modelled. -/
def bigNumberParse (s : String) : Option ℚ :=
  let cs := s.data
  let (sign, cs1) : Int × List Char :=
    match cs with
    | '+' :: rest => (1, rest)
    | '-' :: rest => (-1, rest)
    | _ => (1, cs)
  let intD := cs1.takeWhile Char.isDigit
  let rest1 := cs1.dropWhile Char.isDigit
  match rest1 with
  | [] => if intD.isEmpty then none else some (assemble sign intD [] 0)
  | '.' :: rest2 =>
    let fracD := rest2.takeWhile Char.isDigit
    let rest3 := rest2.dropWhile Char.isDigit
    if intD.isEmpty && fracD.isEmpty then none
    else
      match rest3 with
      | [] => some (assemble sign intD fracD 0)
      | c :: rest4 =>
        if c == 'e' || c == 'E' then
          (parseExpTail rest4).map (fun e => assemble sign intD fracD e)
        else none
  | c :: rest2 =>
    if c == 'e' || c == 'E' then
      if intD.isEmpty then none
      else (parseExpTail rest2).map (fun e => assemble sign intD [] e)
    else none

/-- `BigNumber.prototype.isInteger`: false on NaN, else integrality. -/
def bnIsInteger : Option ℚ → Bool
  | none => false
  | some q => q.den == 1

/-- `BigNumber.prototype.isNaN`. -/
def bnIsNaN : Option ℚ → Bool
  | none => true
  | some _ => false

/-- `BigNumber.prototype.isLessThanOrEqualTo(0)`: false on NaN. -/
def bnLte0 : Option ℚ → Bool
  | none => false
  | some q => decide (q ≤ 0)

/-- Embeds `validateAmount` (src/swap.ts lines 173-183): builds the
BigNumber and fails with `'Invalid amount ' + amount` unless it is an
integer, not NaN and strictly positive; on success returns the value. -/
def validateAmount (amount : String) : Result (Option ℚ) String :=
  let amountBigInt := bigNumberParse amount
  if !bnIsInteger amountBigInt || bnIsNaN amountBigInt || bnLte0 amountBigInt then
    .err ("Invalid amount " ++ amount)
  else
    .ok amountBigInt

/-! ## Data model -/

/-- Caller-supplied asset: chain identifier and atomic-swap contract
address (both strings on the wire). -/
structure Asset where
  chain : String
  atomicSwapAddress : String
deriving DecidableEq, Repr

/-- `additionalData` of `SwapParams`. Both fields are optional strings at
the JS interface (a required TS `string` field can still arrive absent or
empty from an untyped caller). -/
structure AdditionalData where
  strategyId : Option String
  btcAddress : Option String
deriving DecidableEq, Repr

/-- `SwapProps = SwapParams & {btcPublicKey, btcRecipientAddress,
evmAddress}` (src/swap.ts lines 17-21). -/
structure SwapProps where
  fromAsset : Asset
  toAsset : Asset
  sendAmount : String
  receiveAmount : String
  minDestinationConfirmations : Option Nat
  additionalData : AdditionalData
  btcPublicKey : String
  btcRecipientAddress : String
  evmAddress : String
deriving DecidableEq, Repr

/-- Static chain registry of `@gardenfi/orderbook`: the pure lookups
`isBitcoin`, `isMainnet`, `getTimeLock`, kept opaque. -/
structure ChainRegistry where
  isBitcoin : String → Bool
  isMainnet : String → Bool
  getTimeLock : String → Nat

/-! ## The dead comparison on line 152

`if (inputAmount < outputAmount)` compares the two `Result` wrapper
objects, not the BigNumbers inside them. The JS abstract relational
comparison converts each plain object by ToPrimitive (valueOf yields the
object itself, so toString applies) to the string "[object Object]", and
compares the two strings. -/

/-- ToPrimitive (number hint) on a plain `Result` object: `valueOf` is not
primitive-valued, so `toString` gives "[object Object]". -/
def resultToPrimitive {α ε : Type} : Result α ε → String :=
  fun _ => "[object Object]"

/-- The JS `<` of src/swap.ts line 152 applied to two `Result` objects:
string comparison of their ToPrimitive conversions. -/
def jsLt {α ε : Type} (x y : Result α ε) : Bool :=
  compare (resultToPrimitive x) (resultToPrimitive y) == Ordering.lt

/-- Embeds `validateProps` (src/swap.ts lines 114-171), one guard per
source `if`, in source order. -/
def validateProps (reg : ChainRegistry) (props : SwapProps) : Result SwapProps String :=
  if !truthy props.additionalData.strategyId then
    .err "StrategyId is required"
  else if props.fromAsset.chain == props.toAsset.chain
      && props.fromAsset.atomicSwapAddress == props.toAsset.atomicSwapAddress then
    .err "Source and destination assets cannot be the same"
  else if (reg.isMainnet props.fromAsset.chain && !reg.isMainnet props.toAsset.chain)
      || (!reg.isMainnet props.fromAsset.chain && reg.isMainnet props.toAsset.chain) then
    .err "Both assets should be on the same network (either mainnet or testnet)"
  else
    match validateAmount props.sendAmount with
    | .err e => .err e
    | .ok inputVal =>
      match validateAmount props.receiveAmount with
      | .err e => .err e
      | .ok outputVal =>
        if jsLt (Result.ok inputVal : Result (Option ℚ) String)
            (Result.ok outputVal : Result (Option ℚ) String) then
          .err "Send amount should be greater than receive amount"
        else if (reg.isBitcoin props.fromAsset.chain || reg.isBitcoin props.toAsset.chain)
            && !truthy props.additionalData.btcAddress then
          .err "btcAddress in additionalData is required if source or destination chain is bitcoin, it is used as refund or redeem address."
        else
          .ok props

/-! ## Order-request construction and the orchestrator -/

/-- Modelled from the spec: `trim0x` of the external `@catalogfi/utils`
("transmitted with any leading format prefix stripped"); drops one leading
`0x` if present. -/
def trim0x (s : String) : String :=
  match s.data with
  | '0' :: 'x' :: rest => String.mk rest
  | _ => s

/-- Output of `generateSecret` (`./secretManager`, kept opaque). -/
structure Secrets where
  secret : String
  secretHash : String
deriving DecidableEq, Repr

/-- `CreateOrderReqWithStrategyId` as assembled on src/swap.ts lines
63-88; `additional_data` is inlined as the `strategy_id` and
`bitcoin_optional_recipient` fields. -/
structure OrderRequest where
  strategy_id : String
  bitcoin_optional_recipient : Option String
  destination_amount : String
  destination_asset : String
  destination_chain : String
  fee : String
  initiator_destination_address : String
  initiator_source_address : String
  min_destination_confirmations : Nat
  nonce : String
  secret_hash : String
  source_amount : String
  source_asset : String
  source_chain : String
  timelock : Nat
deriving DecidableEq, Repr

/-- The order-request literal of src/swap.ts lines 63-88 as a function of
the validated props, the secret hash and the nonce. The two address legs
follow the JS truthiness of `(isBitcoin(chain) && btcPublicKey) || evmAddress`:
the key is used only when the chain is Bitcoin-family AND the key string
is truthy (non-empty); otherwise the whole conjunct is falsy and `||`
yields `evmAddress`. -/
def buildOrderRequest (reg : ChainRegistry) (v : SwapProps)
    (secretHash nonce : String) : OrderRequest :=
  { strategy_id := v.additionalData.strategyId.getD ""
  , bitcoin_optional_recipient :=
      if v.btcRecipientAddress == "" then none else some v.btcRecipientAddress
  , destination_amount := v.receiveAmount
  , destination_asset := v.toAsset.atomicSwapAddress
  , destination_chain := v.toAsset.chain
  , fee := "1"
  , initiator_destination_address :=
      if reg.isBitcoin v.toAsset.chain && !(v.btcPublicKey == "")
      then v.btcPublicKey else v.evmAddress
  , initiator_source_address :=
      if reg.isBitcoin v.fromAsset.chain && !(v.btcPublicKey == "")
      then v.btcPublicKey else v.evmAddress
  , min_destination_confirmations := v.minDestinationConfirmations.getD 0
  , nonce := nonce
  , secret_hash := trim0x secretHash
  , source_amount := v.sendAmount
  , source_asset := v.fromAsset.atomicSwapAddress
  , source_chain := v.fromAsset.chain
  , timelock := reg.getTimeLock v.fromAsset.chain }

/-- Success value of `swap`. -/
structure SwapOut where
  orderId : String
  secret : String
deriving DecidableEq, Repr

/-- One observable call to an external network collaborator. -/
inductive Call where
  | quote (req : OrderRequest) : Call
  | createOrder (attestedQuote : String) : Call
deriving DecidableEq, Repr

/-- Environment of one `swap` invocation: the chain registry, the nonce
(`Date.now().toString()`), and the opaque collaborators `generateSecret`
(digest key folded in), `new Quote(api.quote).getAttestedQuote` and
`orderbook.createOrder` (auth context folded in). Attested quotes are
opaque strings. -/
structure SwapEnv where
  registry : ChainRegistry
  nonce : String
  genSecret : String → Result Secrets String
  quote : OrderRequest → Result String String
  createOrder : String → Result String String

/-- Embeds `swap` (src/swap.ts lines 22-112): validate, derive the
secret, build the order request, request the attested quote, submit the
order; each step short-circuits to the prior error. The second component
records the calls made to the two network collaborators, in order. -/
def swap (env : SwapEnv) (props : SwapProps) : Result SwapOut String × List Call :=
  match validateProps env.registry props with
  | .err e => (.err e, [])
  | .ok v =>
    match env.genSecret env.nonce with
    | .err e => (.err e, [])
    | .ok s =>
      let orderRequest := buildOrderRequest env.registry v s.secretHash env.nonce
      match env.quote orderRequest with
      | .err e => (.err e, [Call.quote orderRequest])
      | .ok attestedQuote =>
        match env.createOrder attestedQuote with
        | .err e => (.err e, [Call.quote orderRequest, Call.createOrder attestedQuote])
        | .ok orderId =>
          (.ok ⟨orderId, s.secret⟩,
           [Call.quote orderRequest, Call.createOrder attestedQuote])

/-! ## The validation chain as the spec words it

The spec describes `validateProps` as a short-circuiting chain of checks
("first failure wins"). `runChecks` is that chain; `specChecks` words the
send-vs-receive comparison numerically as the spec does, `amendedChecks`
words it as the code implements it (the comparison of the two `Result`
wrapper objects, which never fires). -/

/-- One validation check: `none` means pass, `some e` the error. -/
def Check : Type := ChainRegistry → SwapProps → Option String

/-- Runs checks in order, returning the error of the first failing check,
or the props on success. -/
def runChecks (cs : List Check) (reg : ChainRegistry) (p : SwapProps) :
    Result SwapProps String :=
  match cs with
  | [] => .ok p
  | c :: rest =>
    match c reg p with
    | some e => .err e
    | none => runChecks rest reg p

/-- Check 1: `strategyId` presence (JS truthiness). -/
def checkStrategyId : Check := fun _ p =>
  if !truthy p.additionalData.strategyId then some "StrategyId is required" else none

/-- Check 2: identical assets (same chain and same contract address). -/
def checkIdenticalAssets : Check := fun _ p =>
  if p.fromAsset.chain == p.toAsset.chain
      && p.fromAsset.atomicSwapAddress == p.toAsset.atomicSwapAddress then
    some "Source and destination assets cannot be the same"
  else none

/-- Check 3: both chains in the same network class. -/
def checkNetworkClass : Check := fun reg p =>
  if (reg.isMainnet p.fromAsset.chain && !reg.isMainnet p.toAsset.chain)
      || (!reg.isMainnet p.fromAsset.chain && reg.isMainnet p.toAsset.chain) then
    some "Both assets should be on the same network (either mainnet or testnet)"
  else none

/-- Check 4: `sendAmount` passes `validateAmount`. -/
def checkSendAmount : Check := fun _ p =>
  match validateAmount p.sendAmount with
  | .err e => some e
  | .ok _ => none

/-- Check 5: `receiveAmount` passes `validateAmount`. -/
def checkReceiveAmount : Check := fun _ p =>
  match validateAmount p.receiveAmount with
  | .err e => some e
  | .ok _ => none

/-- Check 6 as the spec words it: `sendAmount` numerically ≥
`receiveAmount` (only meaningful once both amounts validated). -/
def checkSendGeReceiveSpec : Check := fun _ p =>
  match validateAmount p.sendAmount, validateAmount p.receiveAmount with
  | .ok (some qs), .ok (some qr) =>
    if qs < qr then some "Send amount should be greater than receive amount" else none
  | _, _ => none

/-- Check 6 as src/swap.ts line 152 implements it: the JS `<` on the two
`Result` wrapper objects. -/
def checkSendGeReceiveJs : Check := fun _ p =>
  if jsLt (validateAmount p.sendAmount) (validateAmount p.receiveAmount) then
    some "Send amount should be greater than receive amount"
  else none

/-- Check 7: `btcAddress` required when either leg is Bitcoin-family. -/
def checkBtcAddress : Check := fun reg p =>
  if (reg.isBitcoin p.fromAsset.chain || reg.isBitcoin p.toAsset.chain)
      && !truthy p.additionalData.btcAddress then
    some "btcAddress in additionalData is required if source or destination chain is bitcoin, it is used as refund or redeem address."
  else none

/-- The validation chain as the spec and claim C4 word it. -/
def specChecks : List Check :=
  [checkStrategyId, checkIdenticalAssets, checkNetworkClass,
   checkSendAmount, checkReceiveAmount, checkSendGeReceiveSpec, checkBtcAddress]

/-- The validation chain as the code implements it. -/
def amendedChecks : List Check :=
  [checkStrategyId, checkIdenticalAssets, checkNetworkClass,
   checkSendAmount, checkReceiveAmount, checkSendGeReceiveJs, checkBtcAddress]

/-- `validateProps` as the spec's words describe it: the six checks in
order, the send-vs-receive comparison numeric. -/
def specValidateProps (reg : ChainRegistry) (props : SwapProps) :
    Result SwapProps String :=
  runChecks specChecks reg props

/-! ## Concrete fixtures -/

/-- Concrete chain registry for witnesses: one Bitcoin-family chain and
two EVM chains, all mainnet, plus a testnet EVM chain. -/
def reg₀ : ChainRegistry :=
  { isBitcoin := fun c => c == "bitcoin"
  , isMainnet := fun c => c == "bitcoin" || c == "ethereum" || c == "arbitrum"
  , getTimeLock := fun c => if c == "bitcoin" then 144 else 7200 }

/-- A valid EVM→EVM swap request. -/
def pEvm : SwapProps :=
  { fromAsset := { chain := "ethereum", atomicSwapAddress := "0xaaa" }
  , toAsset := { chain := "arbitrum", atomicSwapAddress := "0xbbb" }
  , sendAmount := "100"
  , receiveAmount := "90"
  , minDestinationConfirmations := none
  , additionalData := { strategyId := some "s1", btcAddress := none }
  , btcPublicKey := "02pubkey"
  , btcRecipientAddress := ""
  , evmAddress := "0xevm" }

/-- As `pEvm` but sending strictly less than it receives. -/
def pSmall : SwapProps := { pEvm with sendAmount := "5", receiveAmount := "10" }

/-- As `pEvm` but with a Bitcoin source leg and a present-but-empty
`btcAddress`. -/
def pBtcAddrEmpty : SwapProps :=
  { pEvm with
    fromAsset := { chain := "bitcoin", atomicSwapAddress := "swapbtc" }
  , additionalData := { strategyId := some "s1", btcAddress := some "" } }

/-- As `pEvm` but with a Bitcoin destination leg, a valid `btcAddress`
and an empty Bitcoin public key. -/
def pBtcKeyEmpty : SwapProps :=
  { pEvm with
    toAsset := { chain := "bitcoin", atomicSwapAddress := "swapbtc" }
  , additionalData := { strategyId := some "s1", btcAddress := some "bc1refund" }
  , btcPublicKey := "" }

/-- As `pEvm` but with a Bitcoin destination leg, a valid `btcAddress`
and a non-empty Bitcoin public key. -/
def pToBtc : SwapProps :=
  { pEvm with
    toAsset := { chain := "bitcoin", atomicSwapAddress := "swapbtc" }
  , additionalData := { strategyId := some "s1", btcAddress := some "bc1refund" } }

/-- As `pEvm` but with the strategy id present and empty. -/
def pEmptyStrategy : SwapProps :=
  { pEvm with additionalData := { strategyId := some "", btcAddress := none } }

/-- As `pEvm` but with `minDestinationConfirmations` supplied. -/
def pConf : SwapProps := { pEvm with minDestinationConfirmations := some 3 }

/-- Environment in which every collaborator succeeds. -/
def envOk : SwapEnv :=
  { registry := reg₀
  , nonce := "1700000000000"
  , genSecret := fun _ => .ok { secret := "secret-A", secretHash := "0xhash" }
  , quote := fun _ => .ok "attq"
  , createOrder := fun _ => .ok "ord-1" }

/-- As `envOk` but deriving a different secret with the same hash. -/
def envB : SwapEnv :=
  { envOk with genSecret := fun _ => .ok { secret := "secret-B", secretHash := "0xhash" } }

/-- As `envOk` but with the quote collaborator failing. -/
def envQuoteErr : SwapEnv :=
  { envOk with quote := fun _ => .err "no-liquidity" }

/-! ## Helper lemmas -/

/-- The JS comparison of two `Result` wrapper objects is always false:
both sides convert to the same string "[object Object]". -/
@[simp]
theorem jsLt_eq_false {α ε : Type} (x y : Result α ε) : jsLt x y = false := rfl

/-- A successful `validateProps` hands back exactly its input. -/
theorem validateProps_ok_val (reg : ChainRegistry) (props v : SwapProps)
    (h : validateProps reg props = Result.ok v) : v = props := by
  unfold validateProps at h
  repeat' split at h
  all_goals simp_all

/-- Reduction of `swap` when validation fails. -/
theorem swap_eq_of_err (env : SwapEnv) (props : SwapProps) (e : String)
    (hv : validateProps env.registry props = .err e) :
    swap env props = (.err e, []) := by
  simp only [swap, hv]

/-- Reduction of `swap` past validation and secret derivation. -/
theorem swap_eq_of_ok (env : SwapEnv) (props v : SwapProps) (sec hsh : String)
    (hv : validateProps env.registry props = .ok v)
    (hs : env.genSecret env.nonce = .ok ⟨sec, hsh⟩) :
    swap env props =
      match env.quote (buildOrderRequest env.registry v hsh env.nonce) with
      | .err e =>
        (.err e, [Call.quote (buildOrderRequest env.registry v hsh env.nonce)])
      | .ok aq =>
        match env.createOrder aq with
        | .err e =>
          (.err e,
           [Call.quote (buildOrderRequest env.registry v hsh env.nonce),
            Call.createOrder aq])
        | .ok oid =>
          (.ok ⟨oid, sec⟩,
           [Call.quote (buildOrderRequest env.registry v hsh env.nonce),
            Call.createOrder aq]) := by
  simp only [swap, hv, hs]

/-- When `swap` got past validation and secret derivation, the first (and
only possible) quote call carries exactly the built order request. -/
theorem swap_trace_head (env : SwapEnv) (props v : SwapProps) (sec hsh : String)
    (hv : validateProps env.registry props = .ok v)
    (hs : env.genSecret env.nonce = .ok ⟨sec, hsh⟩) :
    ∀ (req : OrderRequest) (rest : List Call),
      (swap env props).2 = Call.quote req :: rest →
      req = buildOrderRequest env.registry v hsh env.nonce := by
  intro req rest htr
  rw [swap_eq_of_ok env props v sec hsh hv hs] at htr
  split at htr
  · simp only [List.cons.injEq, Call.quote.injEq] at htr
    exact htr.1.symm
  · split at htr <;>
      (simp only [List.cons.injEq, Call.quote.injEq] at htr; exact htr.1.symm)

/-! ## Claims -/

/-- Claim C1: the claim says `validateProps` fails with
SendNotGreaterThanReceive exactly when `sendAmount < receiveAmount`. The
code never does: line 152 compares the two `Result` wrapper objects, both
of which convert to "[object Object]", so the check cannot fire. Here
both amounts validate, 5 < 10 numerically, and yet `validateProps`
accepts the props. -/
theorem validateProps_send_receive_check_dead :
    validateAmount pSmall.sendAmount = Result.ok (some 5)
    ∧ validateAmount pSmall.receiveAmount = Result.ok (some 10)
    ∧ (5 : ℚ) < 10
    ∧ validateProps reg₀ pSmall = Result.ok pSmall := by decide

/-- Claim C4 (counterexample): the validation chain as the claim words it
(numeric send-vs-receive comparison) disagrees with the code on
`pSmall`: the spec chain's first failing check is the comparison, but the
code accepts. -/
theorem specValidateProps_ne_validateProps :
    specValidateProps reg₀ pSmall =
      Result.err "Send amount should be greater than receive amount"
    ∧ validateProps reg₀ pSmall = Result.ok pSmall := by decide

/-- Claim C4 (amended): `validateProps` is exactly the short-circuiting
chain of its checks in source order — strategy id, identical assets,
network class, send amount, receive amount, send-vs-receive comparison
(which, as implemented, never fails), Bitcoin address — and any
validation failure makes `swap` return the error with no collaborator
call. -/
theorem validateProps_check_order_amended :
    (∀ (reg : ChainRegistry) (props : SwapProps),
      validateProps reg props = runChecks amendedChecks reg props)
    ∧ (∀ (env : SwapEnv) (props : SwapProps) (e : String),
        validateProps env.registry props = Result.err e →
        swap env props = (Result.err e, [])) := by
  refine ⟨fun reg props => ?_, fun env props e hv => swap_eq_of_err env props e hv⟩
  unfold validateProps amendedChecks
  simp only [runChecks, checkStrategyId, checkIdenticalAssets, checkNetworkClass,
    checkSendAmount, checkReceiveAmount, checkSendGeReceiveJs, checkBtcAddress,
    jsLt_eq_false, Bool.false_eq_true, if_false]
  cases h1 : (!truthy props.additionalData.strategyId)
  case true => rfl
  case false =>
  cases h2 : (props.fromAsset.chain == props.toAsset.chain
      && props.fromAsset.atomicSwapAddress == props.toAsset.atomicSwapAddress)
  case true => rfl
  case false =>
  cases h3 : ((reg.isMainnet props.fromAsset.chain && !reg.isMainnet props.toAsset.chain)
      || (!reg.isMainnet props.fromAsset.chain && reg.isMainnet props.toAsset.chain))
  case true => rfl
  case false =>
  cases h4 : validateAmount props.sendAmount
  case err => rfl
  case ok =>
  cases h5 : validateAmount props.receiveAmount
  case err => rfl
  case ok =>
  cases h6 : ((reg.isBitcoin props.fromAsset.chain || reg.isBitcoin props.toAsset.chain)
      && !truthy props.additionalData.btcAddress)
  case true => rfl
  case false => rfl

/-- Claim C4 (witness): the amended chain agrees with the code on a
concrete input, and a concrete validation failure short-circuits `swap`
with an empty call trace. -/
theorem validateProps_check_order_amended_witness :
    validateProps reg₀ pSmall = runChecks amendedChecks reg₀ pSmall
    ∧ swap envOk pEmptyStrategy = (Result.err "StrategyId is required", []) :=
  ⟨validateProps_check_order_amended.1 reg₀ pSmall,
   validateProps_check_order_amended.2 envOk pEmptyStrategy "StrategyId is required"
     (by decide)⟩

/-- Claim C5: `validateAmount` fails with the InvalidAmount message when
the string does not parse (NaN), when the value is not an integer, or
when it is ≤ 0; on any string parsing to a positive integer it returns
the exact parsed value. The spec's concrete cases "0", "-5", "abc",
"1.5", and a success, are included. -/
theorem validateAmount_spec :
    (∀ s : String,
      (bigNumberParse s = none → validateAmount s = Result.err ("Invalid amount " ++ s))
      ∧ (∀ q : ℚ, bigNumberParse s = some q → q.den ≠ 1 ∨ q ≤ 0 →
          validateAmount s = Result.err ("Invalid amount " ++ s))
      ∧ (∀ q : ℚ, bigNumberParse s = some q → q.den = 1 → 0 < q →
          validateAmount s = Result.ok (some q)))
    ∧ validateAmount "0" = Result.err "Invalid amount 0"
    ∧ validateAmount "-5" = Result.err "Invalid amount -5"
    ∧ validateAmount "abc" = Result.err "Invalid amount abc"
    ∧ validateAmount "1.5" = Result.err "Invalid amount 1.5"
    ∧ validateAmount "100" = Result.ok (some 100) := by
  refine ⟨fun s => ⟨?_, ?_, ?_⟩, by decide, by decide, by decide, by decide, by decide⟩
  · intro h
    simp [validateAmount, h, bnIsInteger, bnIsNaN, bnLte0]
  · intro q hq hbad
    rcases hbad with hden | hle
    · simp [validateAmount, hq, bnIsInteger, bnIsNaN, bnLte0, hden]
    · simp [validateAmount, hq, bnIsInteger, bnIsNaN, bnLte0, decide_eq_true hle]
  · intro q hq hden hpos
    have hnle : ¬ q ≤ 0 := not_le.mpr hpos
    simp [validateAmount, hq, bnIsInteger, bnIsNaN, bnLte0, hden, hnle]

/-- Claim C5 (witness): the success clause applied at "7". -/
theorem validateAmount_spec_witness :
    bigNumberParse "7" = some 7 ∧ validateAmount "7" = Result.ok (some 7) :=
  ⟨by decide, (validateAmount_spec.1 "7").2.2 7 (by decide) (by decide) (by decide)⟩

/-- Claim C8: when `validateProps` succeeds its value is the original
props, every field unchanged. -/
theorem validateProps_ok_returns_props (reg : ChainRegistry) (props v : SwapProps)
    (h : validateProps reg props = Result.ok v) :
    v = props ∧ validateProps reg props = Result.ok props := by
  have hv := validateProps_ok_val reg props v h
  exact ⟨hv, hv ▸ h⟩

/-- Claim C8 (witness): instantiated on a concrete valid request. -/
theorem validateProps_ok_returns_props_witness :
    pEvm = pEvm ∧ validateProps reg₀ pEvm = Result.ok pEvm :=
  validateProps_ok_returns_props reg₀ pEvm pEvm (by decide)

/-- Claim C10: an empty `strategyId` fails exactly like an absent one,
with the MissingStrategyId message. -/
theorem validateProps_empty_strategyId (reg : ChainRegistry) (props : SwapProps)
    (h : props.additionalData.strategyId = some ""
      ∨ props.additionalData.strategyId = none) :
    validateProps reg props = Result.err "StrategyId is required" := by
  rcases h with h | h <;> simp [validateProps, truthy, h]

/-- Claim C10 (witness): instantiated on a present-but-empty strategy id. -/
theorem validateProps_empty_strategyId_witness :
    validateProps reg₀ pEmptyStrategy = Result.err "StrategyId is required" :=
  validateProps_empty_strategyId reg₀ pEmptyStrategy (Or.inl rfl)

/-- Claim C2: the collaborators never see the secret. (a) The call trace
of `swap` is unchanged when the derived secret changes with the hash held
fixed (noninterference); (b) any quote call carries `trim0x` of the
secret hash; (c) the secret appears only in the success value
`{orderId, secret}`, produced after both collaborator calls succeeded. -/
theorem swap_secret_confidentiality
    (env₁ env₂ : SwapEnv) (props : SwapProps) (s₁ s₂ hsh : String)
    (hreg : env₂.registry = env₁.registry) (hnonce : env₂.nonce = env₁.nonce)
    (hquote : env₂.quote = env₁.quote) (horder : env₂.createOrder = env₁.createOrder)
    (h1 : env₁.genSecret env₁.nonce = Result.ok ⟨s₁, hsh⟩)
    (h2 : env₂.genSecret env₂.nonce = Result.ok ⟨s₂, hsh⟩) :
    (swap env₁ props).2 = (swap env₂ props).2
    ∧ (∀ (req : OrderRequest) (rest : List Call),
        (swap env₁ props).2 = Call.quote req :: rest → req.secret_hash = trim0x hsh)
    ∧ (∀ out : SwapOut, (swap env₁ props).1 = Result.ok out →
        out.secret = s₁
        ∧ ∃ aq : String,
            (swap env₁ props).2 =
              [Call.quote (buildOrderRequest env₁.registry props hsh env₁.nonce),
               Call.createOrder aq]
          ∧ env₁.quote (buildOrderRequest env₁.registry props hsh env₁.nonce) = Result.ok aq
          ∧ env₁.createOrder aq = Result.ok out.orderId) := by
  cases hv : validateProps env₁.registry props with
  | err e =>
    have hv2 : validateProps env₂.registry props = Result.err e := by rw [hreg]; exact hv
    rw [swap_eq_of_err env₁ props e hv, swap_eq_of_err env₂ props e hv2]
    refine ⟨rfl, ?_, ?_⟩
    · intro req rest htr; simp at htr
    · intro out hout; simp at hout
  | ok v =>
    have hvp : v = props := validateProps_ok_val env₁.registry props v hv
    subst hvp
    have hv2 : validateProps env₂.registry v = Result.ok v := by rw [hreg]; exact hv
    have hred1 := swap_eq_of_ok env₁ v v s₁ hsh hv h1
    have hred2 := swap_eq_of_ok env₂ v v s₂ hsh hv2 h2
    refine ⟨?_, ?_, ?_⟩
    · rw [hred1, hred2, hreg, hnonce, hquote, horder]
      split
      · rfl
      · split <;> rfl
    · intro req rest htr
      have hreq := swap_trace_head env₁ v v s₁ hsh hv h1 req rest htr
      subst hreq
      simp [buildOrderRequest]
    · intro out hout
      cases hq : env₁.quote (buildOrderRequest env₁.registry v hsh env₁.nonce) with
      | err e =>
        have hsw : swap env₁ v =
            (Result.err e,
             [Call.quote (buildOrderRequest env₁.registry v hsh env₁.nonce)]) := by
          simp only [hred1, hq]
        rw [hsw] at hout; simp at hout
      | ok aq =>
        cases hc : env₁.createOrder aq with
        | err e =>
          have hsw : swap env₁ v =
              (Result.err e,
               [Call.quote (buildOrderRequest env₁.registry v hsh env₁.nonce),
                Call.createOrder aq]) := by
            simp only [hred1, hq, hc]
          rw [hsw] at hout; simp at hout
        | ok oid =>
          have hsw : swap env₁ v =
              (Result.ok ⟨oid, s₁⟩,
               [Call.quote (buildOrderRequest env₁.registry v hsh env₁.nonce),
                Call.createOrder aq]) := by
            simp only [hred1, hq, hc]
          rw [hsw] at hout
          simp only [Result.ok.injEq] at hout
          subst hout
          refine ⟨rfl, aq, ?_, rfl, hc⟩
          rw [hsw]

/-- Claim C2 (witness): two concrete runs differing only in the derived
secret produce identical call traces; the transmitted hash is the
0x-stripped one; the full-success result reveals the secret to the
caller. -/
theorem swap_secret_confidentiality_witness :
    (swap envOk pEvm).2 = (swap envB pEvm).2
    ∧ (buildOrderRequest reg₀ pEvm "0xhash" "1700000000000").secret_hash = "hash"
    ∧ (swap envOk pEvm).1 = Result.ok ⟨"ord-1", "secret-A"⟩ := by
  have h := swap_secret_confidentiality envOk envB pEvm "secret-A" "secret-B" "0xhash"
      rfl rfl rfl rfl rfl rfl
  refine ⟨h.1, ?_, by decide⟩
  have h2 := h.2.1 (buildOrderRequest reg₀ pEvm "0xhash" "1700000000000")
      [Call.createOrder "attq"] (by decide)
  exact h2.trans (by decide)

/-- Claim C3: once validation and secret derivation succeed, a quote
collaborator error is returned as the result of `swap` unchanged, and the
order-submission collaborator is never called. -/
theorem swap_quote_error_short_circuits
    (env : SwapEnv) (props v : SwapProps) (sec hsh e : String)
    (hv : validateProps env.registry props = Result.ok v)
    (hs : env.genSecret env.nonce = Result.ok ⟨sec, hsh⟩)
    (hq : env.quote (buildOrderRequest env.registry v hsh env.nonce) = Result.err e) :
    (swap env props).1 = Result.err e
    ∧ (swap env props).2 = [Call.quote (buildOrderRequest env.registry v hsh env.nonce)]
    ∧ ∀ aq : String, Call.createOrder aq ∉ (swap env props).2 := by
  have hred := swap_eq_of_ok env props v sec hsh hv hs
  rw [hred, hq]
  refine ⟨rfl, rfl, ?_⟩
  intro aq hmem
  simp at hmem

/-- Claim C3 (witness): a concrete failing quote collaborator. -/
theorem swap_quote_error_short_circuits_witness :
    (swap envQuoteErr pEvm).1 = Result.err "no-liquidity"
    ∧ (swap envQuoteErr pEvm).2 =
        [Call.quote (buildOrderRequest reg₀ pEvm "0xhash" "1700000000000")]
    ∧ Call.createOrder "attq" ∉ (swap envQuoteErr pEvm).2 := by
  have h := swap_quote_error_short_circuits envQuoteErr pEvm pEvm "secret-A" "0xhash"
      "no-liquidity" (by decide) rfl rfl
  exact ⟨h.1, h.2.1, h.2.2 "attq"⟩

/-- Claim C6 (counterexample): a validated swap with a Bitcoin-family
destination chain whose caller supplied an empty Bitcoin public key: the
order request uses the EVM address for the Bitcoin leg, not the claimed
Bitcoin public key (JS falsy fallback of
`(isBitcoin(chain) && btcPublicKey) || evmAddress`). -/
theorem orderRequest_empty_btcKey_uses_evm :
    validateProps reg₀ pBtcKeyEmpty = Result.ok pBtcKeyEmpty
    ∧ reg₀.isBitcoin pBtcKeyEmpty.toAsset.chain = true
    ∧ pBtcKeyEmpty.btcPublicKey = ""
    ∧ (swap envQuoteErr pBtcKeyEmpty).2 =
        [Call.quote (buildOrderRequest reg₀ pBtcKeyEmpty "0xhash" "1700000000000")]
    ∧ (buildOrderRequest reg₀ pBtcKeyEmpty "0xhash" "1700000000000").initiator_destination_address
        = pBtcKeyEmpty.evmAddress
    ∧ pBtcKeyEmpty.evmAddress ≠ pBtcKeyEmpty.btcPublicKey := by decide

/-- Claim C6 (amended): in the order request that `swap` sends to the
quote collaborator, each leg resolves independently to the Bitcoin public
key when that leg's chain is Bitcoin-family AND the key is non-empty, and
to the EVM address otherwise (in particular whenever the key is the empty
string). -/
theorem orderRequest_address_resolution_amended
    (env : SwapEnv) (props v : SwapProps) (sec hsh : String)
    (hv : validateProps env.registry props = Result.ok v)
    (hs : env.genSecret env.nonce = Result.ok ⟨sec, hsh⟩) :
    ∀ (req : OrderRequest) (rest : List Call),
      (swap env props).2 = Call.quote req :: rest →
      (env.registry.isBitcoin props.fromAsset.chain = true → props.btcPublicKey ≠ "" →
        req.initiator_source_address = props.btcPublicKey)
      ∧ (env.registry.isBitcoin props.fromAsset.chain = false →
        req.initiator_source_address = props.evmAddress)
      ∧ (props.btcPublicKey = "" → req.initiator_source_address = props.evmAddress)
      ∧ (env.registry.isBitcoin props.toAsset.chain = true → props.btcPublicKey ≠ "" →
        req.initiator_destination_address = props.btcPublicKey)
      ∧ (env.registry.isBitcoin props.toAsset.chain = false →
        req.initiator_destination_address = props.evmAddress)
      ∧ (props.btcPublicKey = "" → req.initiator_destination_address = props.evmAddress) := by
  have hvp : v = props := validateProps_ok_val env.registry props v hv
  subst hvp
  intro req rest htr
  have hreq := swap_trace_head env v v sec hsh hv hs req rest htr
  subst hreq
  refine ⟨?_, ?_, ?_, ?_, ?_, ?_⟩
  · intro hb hk; simp [buildOrderRequest, hb, hk]
  · intro hb; simp [buildOrderRequest, hb]
  · intro hk; simp [buildOrderRequest, hk]
  · intro hb hk; simp [buildOrderRequest, hb, hk]
  · intro hb; simp [buildOrderRequest, hb]
  · intro hk; simp [buildOrderRequest, hk]

/-- Claim C6 (witness): one Bitcoin leg and one EVM leg resolving
independently, with a non-empty key. -/
theorem orderRequest_address_resolution_amended_witness :
    (buildOrderRequest reg₀ pToBtc "0xhash" "1700000000000").initiator_destination_address
      = pToBtc.btcPublicKey
    ∧ (buildOrderRequest reg₀ pToBtc "0xhash" "1700000000000").initiator_source_address
      = pToBtc.evmAddress := by
  have h := orderRequest_address_resolution_amended envOk pToBtc pToBtc "secret-A" "0xhash"
      (by decide) rfl
      (buildOrderRequest reg₀ pToBtc "0xhash" "1700000000000")
      [Call.createOrder "attq"] (by decide)
  exact ⟨h.2.2.2.1 (by decide) (by decide), h.2.1 (by decide)⟩

/-- Claim C7 (counterexample): a present-but-empty `btcAddress` on a swap
with a Bitcoin source leg is rejected with the MissingBtcAddress message,
although the field is not absent — refuting "fails exactly when …
btcAddress is absent". -/
theorem validateProps_rejects_present_empty_btcAddress :
    pBtcAddrEmpty.additionalData.btcAddress = some ""
    ∧ pBtcAddrEmpty.additionalData.btcAddress ≠ none
    ∧ validateProps reg₀ pBtcAddrEmpty =
        Result.err "btcAddress in additionalData is required if source or destination chain is bitcoin, it is used as refund or redeem address." := by
  decide

/-- Claim C7 (amended): past the earlier checks, `validateProps` fails
with the MissingBtcAddress message exactly when some leg is
Bitcoin-family and `btcAddress` is absent OR empty (JS falsiness); when
that condition does not hold — in particular when neither chain is
Bitcoin-family and `btcAddress` is missing — validation succeeds. -/
theorem validateProps_btcAddress_amended (reg : ChainRegistry) (props : SwapProps)
    (h1 : truthy props.additionalData.strategyId = true)
    (h2 : (props.fromAsset.chain == props.toAsset.chain
        && props.fromAsset.atomicSwapAddress == props.toAsset.atomicSwapAddress) = false)
    (h3 : ((reg.isMainnet props.fromAsset.chain && !reg.isMainnet props.toAsset.chain)
        || (!reg.isMainnet props.fromAsset.chain && reg.isMainnet props.toAsset.chain)) = false)
    (h4 : (validateAmount props.sendAmount).isOk = true)
    (h5 : (validateAmount props.receiveAmount).isOk = true) :
    (validateProps reg props =
        Result.err "btcAddress in additionalData is required if source or destination chain is bitcoin, it is used as refund or redeem address."
      ↔ (reg.isBitcoin props.fromAsset.chain || reg.isBitcoin props.toAsset.chain) = true
        ∧ truthy props.additionalData.btcAddress = false)
    ∧ (((reg.isBitcoin props.fromAsset.chain || reg.isBitcoin props.toAsset.chain)
          && !truthy props.additionalData.btcAddress) = false →
        validateProps reg props = Result.ok props) := by
  obtain ⟨vs, hvs⟩ : ∃ x, validateAmount props.sendAmount = Result.ok x := by
    cases h : validateAmount props.sendAmount
    · exact ⟨_, rfl⟩
    · rw [h] at h4; simp [Result.isOk] at h4
  obtain ⟨vr, hvr⟩ : ∃ x, validateAmount props.receiveAmount = Result.ok x := by
    cases h : validateAmount props.receiveAmount
    · exact ⟨_, rfl⟩
    · rw [h] at h5; simp [Result.isOk] at h5
  unfold validateProps
  simp only [h1, h2, h3, hvs, hvr, jsLt_eq_false, Bool.not_true, Bool.false_eq_true,
    if_false]
  cases hbit : (reg.isBitcoin props.fromAsset.chain || reg.isBitcoin props.toAsset.chain) <;>
    cases hbtc : truthy props.additionalData.btcAddress <;>
      simp

/-- Claim C7 (witness): the failure direction on a present-but-empty
`btcAddress` with a Bitcoin leg, and the acceptance direction on an
EVM↔EVM swap with no `btcAddress` at all. -/
theorem validateProps_btcAddress_amended_witness :
    validateProps reg₀ pBtcAddrEmpty =
      Result.err "btcAddress in additionalData is required if source or destination chain is bitcoin, it is used as refund or redeem address."
    ∧ validateProps reg₀ pEvm = Result.ok pEvm :=
  ⟨(validateProps_btcAddress_amended reg₀ pBtcAddrEmpty (by decide) (by decide)
      (by decide) (by decide) (by decide)).1.mpr (by decide),
   (validateProps_btcAddress_amended reg₀ pEvm (by decide) (by decide)
      (by decide) (by decide) (by decide)).2 (by decide)⟩

/-- Claim C9: the order request built by `swap` sets
`min_destination_confirmations` to 0 when the props field is absent and
passes a present value through unchanged. -/
theorem orderRequest_min_destination_confirmations
    (env : SwapEnv) (props v : SwapProps) (sec hsh : String)
    (hv : validateProps env.registry props = Result.ok v)
    (hs : env.genSecret env.nonce = Result.ok ⟨sec, hsh⟩) :
    ∀ (req : OrderRequest) (rest : List Call),
      (swap env props).2 = Call.quote req :: rest →
      (props.minDestinationConfirmations = none → req.min_destination_confirmations = 0)
      ∧ (∀ n : Nat, props.minDestinationConfirmations = some n →
          req.min_destination_confirmations = n) := by
  have hvp : v = props := validateProps_ok_val env.registry props v hv
  subst hvp
  intro req rest htr
  have hreq := swap_trace_head env v v sec hsh hv hs req rest htr
  subst hreq
  constructor
  · intro h; simp [buildOrderRequest, h]
  · intro n h; simp [buildOrderRequest, h]

/-- Claim C9 (witness): absent field defaults to 0; a supplied value 3
passes through. -/
theorem orderRequest_min_destination_confirmations_witness :
    (buildOrderRequest reg₀ pEvm "0xhash" "1700000000000").min_destination_confirmations = 0
    ∧ (buildOrderRequest reg₀ pConf "0xhash" "1700000000000").min_destination_confirmations = 3 := by
  have ha := orderRequest_min_destination_confirmations envOk pEvm pEvm "secret-A" "0xhash"
      (by decide) rfl
      (buildOrderRequest reg₀ pEvm "0xhash" "1700000000000") [Call.createOrder "attq"]
      (by decide)
  have hb := orderRequest_min_destination_confirmations envOk pConf pConf "secret-A" "0xhash"
      (by decide) rfl
      (buildOrderRequest reg₀ pConf "0xhash" "1700000000000") [Call.createOrder "attq"]
      (by decide)
  exact ⟨ha.1 rfl, hb.2 3 rfl⟩

end Gardenfi
